import Mathlib

/-!
Verification development for the `tweet_parser` repository.

The central source file is `tweet_parser/tweet.py`, which defines the
`Tweet` class (a `dict` subclass) with lazy accessor properties.  Payloads
are JSON-like mappings; we embed them as association lists over a JSON
value type.  Helper modules (`tweet_checking`, `tweet_date`, `tweet_text`,
`tweet_embeds`, `lazy_property`) are not part of the provided source tree;
where a definition corresponds to one of those modules it is modelled from
the specification and its doc comment says so.

Fallible Python code (KeyError, raised exceptions) is embedded with
`Option` / `Except`.
-/

/-- JSON-like values, the shape of decoded tweet payloads. -/
inductive Json where
  | null : Json
  | bool : Bool → Json
  | num : Int → Json
  | str : String → Json
  | arr : List Json → Json
  | obj : List (String × Json) → Json

/-- A payload: a mapping from string keys to JSON values (Python `dict`). -/
abbrev Payload := List (String × Json)

/-- Python `d[k]` lookup on a mapping, `none` when the key raises `KeyError`. -/
def lookupKey (p : Payload) (k : String) : Option Json :=
  match p with
  | [] => none
  | (k', v) :: rest => if k' = k then some v else lookupKey rest k

/-- Python `k in d` membership test on a mapping. -/
def hasKey (p : Payload) (k : String) : Bool :=
  match p with
  | [] => false
  | (k', _) :: rest => k' = k || hasKey rest k

theorem lookupKey_eq_none_of_hasKey_false {p : Payload} {k : String}
    (h : hasKey p k = false) : lookupKey p k = none := by
  induction p with
  | nil => rfl
  | cons kv rest ih =>
    obtain ⟨k', v⟩ := kv
    simp only [hasKey, Bool.or_eq_false_iff, decide_eq_false_iff_not] at h
    simp only [lookupKey, if_neg h.1]
    exact ih h.2

/-- The two error kinds of the library: `NotATweetError` and
`NotAvailableError` (module `tweet_parser_errors`, declared outside the
provided source; each carries its message string). -/
inductive TweetError where
  | notATweet : String → TweetError
  | notAvailable : String → TweetError
  deriving DecidableEq

/-- The message carried by an error (Python `str(exception)`). -/
def TweetError.message : TweetError → String
  | .notATweet m => m
  | .notAvailable m => m

/-! ### Python `str.split` on a single-character separator -/

/-- Python `s.split(sep)` for a one-character separator, on the character
list: splits at every occurrence of `sep`, keeping empty segments, and
always returns at least one segment. -/
def splitOnChar (sep : Char) : List Char → List (List Char)
  | [] => [[]]
  | c :: cs =>
    match splitOnChar sep cs with
    | [] => [[]]
    | h :: t => if c = sep then [] :: h :: t else (c :: h) :: t

theorem splitOnChar_cons (sep c : Char) (cs : List Char) :
    splitOnChar sep (c :: cs)
      = match splitOnChar sep cs with
        | [] => [[]]
        | h :: t => if c = sep then [] :: h :: t else (c :: h) :: t := rfl

theorem splitOnChar_cons_eq (sep c : Char) {cs h : List Char}
    {t : List (List Char)} (ht : splitOnChar sep cs = h :: t) :
    splitOnChar sep (c :: cs)
      = if c = sep then [] :: h :: t else (c :: h) :: t := by
  rw [splitOnChar_cons, ht]

theorem splitOnChar_ne_nil (sep : Char) (l : List Char) :
    splitOnChar sep l ≠ [] := by
  cases l with
  | nil => simp [splitOnChar]
  | cons c cs =>
    rw [splitOnChar_cons]
    cases splitOnChar sep cs with
    | nil => simp
    | cons h t =>
      by_cases hc : c = sep <;> simp [hc]

theorem splitOnChar_dest (sep : Char) (l : List Char) :
    ∃ h t, splitOnChar sep l = h :: t := by
  cases hsp : splitOnChar sep l with
  | nil => exact absurd hsp (splitOnChar_ne_nil sep l)
  | cons a b => exact ⟨a, b, rfl⟩

theorem splitOnChar_of_not_mem {sep : Char} {l : List Char}
    (h : sep ∉ l) : splitOnChar sep l = [l] := by
  induction l with
  | nil => rfl
  | cons c cs ih =>
    simp only [List.mem_cons, not_or] at h
    have hc : ¬ c = sep := fun hceq => h.1 hceq.symm
    rw [splitOnChar_cons_eq sep c (ih h.2), if_neg hc]

theorem length_splitOnChar_of_mem {sep : Char} {l : List Char}
    (h : sep ∈ l) : 2 ≤ (splitOnChar sep l).length := by
  induction l with
  | nil => cases h
  | cons c cs ih =>
    obtain ⟨h', t, ht⟩ := splitOnChar_dest sep cs
    rw [splitOnChar_cons_eq sep c ht]
    rcases List.mem_cons.mp h with hc | hcs
    · rw [if_pos hc.symm]; simp
    · have hlen := ih hcs
      rw [ht] at hlen
      by_cases hceq : c = sep
      · rw [if_pos hceq]; simp
      · rw [if_neg hceq]; simpa using hlen

/-- Python `lst[-1]` on a list known to be nonempty, with a default for the
(unreachable) empty case. -/
def pyLast {α : Type} : List α → α → α
  | [], d => d
  | a :: t, _ => pyLast t a

theorem pyLast_cons {α : Type} (a : α) (t : List α) (d : α) :
    pyLast (a :: t) d = pyLast t a := rfl

theorem pyLast_default_irrel {α : Type} {l : List α} (h : l ≠ []) (d d' : α) :
    pyLast l d = pyLast l d' := by
  cases l with
  | nil => exact absurd rfl h
  | cons a t => rfl

theorem pyLast_splitOnChar_append (sep : Char) (l1 l2 : List Char)
    (d : List Char) :
    pyLast (splitOnChar sep (l1 ++ sep :: l2)) d
      = pyLast (splitOnChar sep l2) d := by
  induction l1 with
  | nil =>
    obtain ⟨h', t, ht⟩ := splitOnChar_dest sep l2
    rw [List.nil_append, splitOnChar_cons_eq sep sep ht, if_pos rfl, ht]
    rfl
  | cons c cs ih =>
    obtain ⟨h', t, ht⟩ := splitOnChar_dest sep (cs ++ sep :: l2)
    have hmem : sep ∈ cs ++ sep :: l2 := by simp
    have hlen : 2 ≤ (splitOnChar sep (cs ++ sep :: l2)).length :=
      length_splitOnChar_of_mem hmem
    rw [ht] at hlen
    have htne : t ≠ [] := by
      intro hnil
      rw [hnil] at hlen
      simp at hlen
    rw [ht] at ih
    rw [List.cons_append, splitOnChar_cons_eq sep c ht]
    by_cases hc : c = sep
    · rw [if_pos hc, ← ih]; rfl
    · rw [if_neg hc, ← ih]
      show pyLast t (c :: h') = pyLast t h'
      exact pyLast_default_irrel htne _ _

theorem pyLast_map {α β : Type} (f : α → β) (l : List α) (d : α) :
    pyLast (l.map f) (f d) = f (pyLast l d) := by
  induction l generalizing d with
  | nil => rfl
  | cons a t ih => rw [List.map_cons, pyLast_cons, pyLast_cons, ih]

/-! ### Format classification (collaborator `tweet_checking`, not in src) -/

/-- Modelled from the spec: the enumerated superset of expected top-level
keys for the "original" schema variant (module `tweet_parser.tweet_keys`,
not in the provided source; the spec only says such an enumerated set
exists, so a representative set of original-format keys is used). -/
def superset_original_keys : List String :=
  ["created_at", "id", "id_str", "text", "user", "entities",
   "extended_tweet", "quoted_status", "retweeted_status", "geo",
   "coordinates", "place", "truncated", "lang", "source",
   "favorite_count", "retweet_count", "in_reply_to_status_id"]

/-- Modelled from the spec: the minimum set of expected keys for the
"original" schema variant (module `tweet_parser.tweet_keys`, not in the
provided source). -/
def minimum_original_keys : List String :=
  ["created_at", "id", "id_str", "text", "user"]

/-- Modelled from the spec: the enumerated superset of expected top-level
keys for the "activity-streams" schema variant. -/
def superset_activity_keys : List String :=
  ["postedTime", "id", "body", "actor", "verb", "object", "objectType",
   "long_object", "twitter_entities", "twitter_quoted_status", "gnip",
   "generator", "provider", "link", "location", "retweetCount",
   "favoritesCount"]

/-- Modelled from the spec: the minimum set of expected keys for the
"activity-streams" schema variant. -/
def minimum_activity_keys : List String :=
  ["postedTime", "id", "body", "actor"]

/-- Modelled from the spec: strict key validation — every key of the
payload must lie in the expected superset and every minimum key must be
present, otherwise construction fails. -/
def keysValid (p : Payload) (superset minimum : List String) : Bool :=
  p.all (fun kv => superset.contains kv.1)
    && minimum.all (fun k => hasKey p k)

/-- Modelled from the spec: `tweet_checking.check_tweet` (module
`tweet_checking`, not in the provided source).  Classifies a payload into
the "original" variant (`true`, discriminated by its timestamp field
`created_at`) or the "activity-streams" variant (`false`, discriminated by
its timestamp field `postedTime`), raising `NotATweetError` when neither
discriminating key pattern matches.  With `do_format_validation` set, the
keys are additionally compared to the expected superset and minimum sets
and a mismatch is fatal. -/
def check_tweet (p : Payload) (do_format_validation : Bool) :
    Except TweetError Bool :=
  if hasKey p "created_at" then
    if do_format_validation
        && !(keysValid p superset_original_keys minimum_original_keys) then
      .error (.notATweet "Unexpected keys or missing expected keys in this original-format dict")
    else
      .ok true
  else if hasKey p "postedTime" then
    if do_format_validation
        && !(keysValid p superset_activity_keys minimum_activity_keys) then
      .error (.notATweet "Unexpected keys or missing expected keys in this activity-streams dict")
    else
      .ok false
  else
    .error (.notATweet "This dict has neither created_at nor postedTime as keys, it is not a tweet")

/-! ### The `Tweet` class (`tweet_parser/tweet.py`) -/

/-- The `Tweet` class.  In Python it subclasses `dict`: `payload` is its
mapping content (installed by `self.update(tweet_dict)`), and
`original_format` is the instance attribute set from the classifier. -/
structure Tweet where
  payload : Payload
  original_format : Bool

/-- `Tweet.__init__`: classify the payload first (this raises
`NotATweetError` for a non-tweet), then install the payload's key/value
pairs on the instance. -/
def mkTweet (tweet_dict : Payload) (do_format_validation : Bool := false) :
    Except TweetError Tweet :=
  match check_tweet tweet_dict do_format_validation with
  | .ok fmt => .ok { payload := tweet_dict, original_format := fmt }
  | .error e => .error e

/-- `Tweet.id`: `self["id_str"]` for the original format, otherwise
`self["id"].split(":")[-1]`.  A missing key or a non-string value (a
Python `KeyError`/`AttributeError`) is `none`. -/
def Tweet.id (t : Tweet) : Option String :=
  if t.original_format then
    match lookupKey t.payload "id_str" with
    | some (.str s) => some s
    | _ => none
  else
    match lookupKey t.payload "id" with
    | some (.str s) => some (pyLast ((splitOnChar ':' s.data).map String.mk) "")
    | _ => none

/-- Python `int(s)` on a plain digit string: the numeric value when `s` is
a nonempty run of decimal digits, `none` (a `ValueError`) otherwise. -/
def pyInt (s : String) : Option Nat :=
  if s.data ≠ [] ∧ s.data.all (fun c => c.isDigit) then
    some (s.data.foldl (fun n c => n * 10 + (c.toNat - 48)) 0)
  else none

/-- Modelled from the spec: `tweet_date.snowflake2utc` (module
`tweet_date`, not in the provided source).  Decodes a snowflake id:
the numeric value shifted right by 22 bits gives milliseconds past the
custom epoch 1288834974657; add the offset and divide by 1000 truncating
to seconds. -/
def snowflake2utc (tweet_id : String) : Option Nat :=
  (pyInt tweet_id).map (fun n => (n >>> 22 + 1288834974657) / 1000)

/-- `Tweet.created_at_seconds`: `snowflake2utc(self.id)`. -/
def Tweet.created_at_seconds (t : Tweet) : Option Nat :=
  t.id.bind snowflake2utc

/-- A Python `datetime.datetime` value (UTC, whole seconds). -/
structure PyDatetime where
  year : Nat
  month : Nat
  day : Nat
  hour : Nat
  minute : Nat
  second : Nat
  deriving DecidableEq

/-- Gregorian calendar date from a count of days since 1970-01-01
(standard civil-from-days conversion, the semantics of
`datetime.datetime.utcfromtimestamp` on whole days). -/
def civilFromDays (z0 : Nat) : Nat × Nat × Nat :=
  let z := z0 + 719468
  let era := z / 146097
  let doe := z % 146097
  let yoe := (doe - doe / 1460 + doe / 36524 - doe / 146096) / 365
  let y := yoe + era * 400
  let doy := doe - (365 * yoe + yoe / 4 - yoe / 100)
  let mp := (5 * doy + 2) / 153
  let d := doy - (153 * mp + 2) / 5 + 1
  let m := if mp < 10 then mp + 3 else mp - 9
  (if m ≤ 2 then y + 1 else y, m, d)

/-- `datetime.datetime.utcfromtimestamp` on nonnegative whole seconds. -/
def utcfromtimestamp (secs : Nat) : PyDatetime :=
  let days := secs / 86400
  let rem := secs % 86400
  let ymd := civilFromDays days
  { year := ymd.1, month := ymd.2.1, day := ymd.2.2,
    hour := rem / 3600, minute := rem % 3600 / 60, second := rem % 60 }

/-- `Tweet.created_at_datetime`:
`datetime.datetime.utcfromtimestamp(self.created_at_seconds)`. -/
def Tweet.created_at_datetime (t : Tweet) : Option PyDatetime :=
  t.created_at_seconds.map utcfromtimestamp

/-- Zero-padded two-digit decimal rendering (Python `%02d`). -/
def pad2 (n : Nat) : String :=
  if n < 10 then "0" ++ toString n else toString n

/-- Zero-padded four-digit decimal rendering (Python `%04d`). -/
def pad4 (n : Nat) : String :=
  if n < 10 then "000" ++ toString n
  else if n < 100 then "00" ++ toString n
  else if n < 1000 then "0" ++ toString n
  else toString n

/-- One `strftime` directive character (the ones C/Python define that the
source's format string can reach). -/
def strfDirective (dt : PyDatetime) : Char → String
  | 'Y' => pad4 dt.year
  | 'm' => pad2 dt.month
  | 'd' => pad2 dt.day
  | 'H' => pad2 dt.hour
  | 'M' => pad2 dt.minute
  | 'S' => pad2 dt.second
  | c => "%" ++ String.singleton c

/-- Python `datetime.strftime` over the format string's characters. -/
def strftimeChars (dt : PyDatetime) : List Char → String
  | [] => ""
  | '%' :: c :: rest => strfDirective dt c ++ strftimeChars dt rest
  | c :: rest => String.singleton c ++ strftimeChars dt rest

/-- `Tweet.created_at_string`:
`self.created_at_datetime.strftime("%Y-%M-%dT%H:%M:%S.000Z")` — note the
source's format string really does use `%M` (the minute directive) in the
month position. -/
def Tweet.created_at_string (t : Tweet) : Option String :=
  t.created_at_datetime.map
    (fun dt => strftimeChars dt "%Y-%M-%dT%H:%M:%S.000Z".data)

/-! ### Text resolver (collaborator `tweet_text`, not in src) -/

/-- Modelled from the spec: `tweet_text.get_tweet_type` (module
`tweet_text`, not in the provided source).  Three-way classification by
the embedded-content markers present in the raw payload: repost marker
present gives "retweet"; quote marker present and no repost marker gives
"quote"; neither gives "tweet".  The spec leaves the marker key names
abstract; "retweeted_status" and "quoted_status" stand for the repost and
quote markers. -/
def get_tweet_type (t : Tweet) : String :=
  if hasKey t.payload "retweeted_status" then "retweet"
  else if hasKey t.payload "quoted_status" then "quote"
  else "tweet"

/-- `Tweet.tweet_type`: `tweet_text.get_tweet_type(self)`. -/
def Tweet.tweet_type (t : Tweet) : String :=
  get_tweet_type t

/-- Modelled from the spec: `tweet_text.get_full_text` (module
`tweet_text`, not in the provided source).  The untruncated/extended text:
prefer the extended-text field (`extended_tweet.full_text`, resp.
`long_object.body`) over the possibly-truncated short one (`text`, resp.
`body`) when both exist.  A missing/badly-typed text field is `none`
(a Python `KeyError`). -/
def get_full_text (t : Tweet) : Option String :=
  if t.original_format then
    match lookupKey t.payload "extended_tweet" with
    | some (.obj ext) =>
      (match lookupKey ext "full_text" with
       | some (.str s) => some s
       | _ => none)
    | _ =>
      (match lookupKey t.payload "text" with
       | some (.str s) => some s
       | _ => none)
  else
    match lookupKey t.payload "long_object" with
    | some (.obj lo) =>
      (match lookupKey lo "body" with
       | some (.str s) => some s
       | _ => none)
    | _ =>
      (match lookupKey t.payload "body" with
       | some (.str s) => some s
       | _ => none)

/-- `Tweet.user_entered_text`: the empty string for a retweet, otherwise
`tweet_text.get_full_text(self)`. -/
def Tweet.user_entered_text (t : Tweet) : Option String :=
  if t.tweet_type = "retweet" then some ""
  else get_full_text t

/-- Option label strings of one poll's `options` array (each option is an
object whose `text` field is the label). -/
def optionLabels (opts : List Json) : List String :=
  opts.filterMap (fun o =>
    match o with
    | .obj fields =>
      (match lookupKey fields "text" with
       | some (.str s) => some s
       | _ => none)
    | _ => none)

/-- The option labels of all polls in an `entities.polls` array. -/
def pollOptionTexts (polls : List Json) : List String :=
  (polls.map (fun pl =>
    match pl with
    | .obj fields =>
      (match lookupKey fields "options" with
       | some (.arr opts) => optionLabels opts
       | _ => [])
    | _ => [])).flatten

/-- Modelled from the spec: `tweet_text.get_poll_options` (module
`tweet_text`, not in the provided source).  For the original format, the
list of option label strings of the poll entity substructure when present
and the empty list otherwise; for the activity-streams format, always a
`NotAvailableError` (that schema does not carry poll data). -/
def get_poll_options (t : Tweet) : Except TweetError (List String) :=
  if t.original_format then
    match lookupKey t.payload "entities" with
    | some (.obj ents) =>
      (match lookupKey ents "polls" with
       | some (.arr polls) => .ok (pollOptionTexts polls)
       | _ => .ok [])
    | _ => .ok []
  else
    .error (.notAvailable "Poll options are not available in activity-streams format Tweets")

/-- `Tweet.poll_options`: `tweet_text.get_poll_options(self)`. -/
def Tweet.poll_options (t : Tweet) : Except TweetError (List String) :=
  get_poll_options t

/-! ### Embedded-post resolver (`tweet_embeds` collaborator + accessors) -/

/-- Modelled from the spec: `tweet_embeds.get_quote_tweet` (module
`tweet_embeds`, not in the provided source): the nested raw payload under
the quote marker, or `None` when no quote marker is present. -/
def get_quote_tweet (t : Tweet) : Option Payload :=
  match lookupKey t.payload "quoted_status" with
  | some (.obj q) => some q
  | _ => none

/-- Modelled from the spec: `tweet_embeds.get_retweet` (module
`tweet_embeds`, not in the provided source): the nested raw payload under
the repost marker, or `None` when no repost marker is present. -/
def get_retweet (t : Tweet) : Option Payload :=
  match lookupKey t.payload "retweeted_status" with
  | some (.obj r) => some r
  | _ => none

/-- Modelled from the spec: `tweet_embeds.get_embedded_tweet` (module
`tweet_embeds`, not in the provided source): whichever of the repost or
quote nested payloads is present (at most one can be). -/
def get_embedded_tweet (t : Tweet) : Option Payload :=
  match get_retweet t with
  | some r => some r
  | none => get_quote_tweet t

mutual

/-- Python `str()` of a decoded JSON value (used by the source's
`"... {} ...".format(embedded_tweet, nate)`); string-escaping corner cases
inside string values are not modelled. -/
def pyReprJson : Json → String
  | .null => "None"
  | .bool true => "True"
  | .bool false => "False"
  | .num n => toString n
  | .str s => "'" ++ s ++ "'"
  | .arr xs => "[" ++ String.intercalate ", " (pyReprList xs) ++ "]"
  | .obj fields => "\x7b" ++ String.intercalate ", " (pyReprFields fields) ++ "\x7d"

/-- `str()` of each element of a JSON array. -/
def pyReprList : List Json → List String
  | [] => []
  | x :: xs => pyReprJson x :: pyReprList xs

/-- `'key': value` fragments of a Python dict's `str()`. -/
def pyReprFields : List (String × Json) → List String
  | [] => []
  | (k, v) :: fs => ("'" ++ k ++ "': " ++ pyReprJson v) :: pyReprFields fs

end

/-- Python `str()` of a payload dict. -/
def pyReprPayload (p : Payload) : String :=
  "\x7b" ++ String.intercalate ", " (pyReprFields p) ++ "\x7d"

/-- `Tweet.quote_tweet`: build a `Tweet` from the nested quote payload if
one is present; a `NotATweetError` from that construction is caught and
re-raised with quote-specific context. -/
def Tweet.quote_tweet (t : Tweet) : Except TweetError (Option Tweet) :=
  match get_quote_tweet t with
  | none => .ok none
  | some q =>
    match mkTweet q with
    | .ok qt => .ok (some qt)
    | .error (.notATweet m) =>
      .error (.notATweet
        ("The quote-tweet payload appears malformed. Failed with '" ++ m ++ "'"))
    | .error e => .error e

/-- `Tweet.retweet`: build a `Tweet` from the nested repost payload if one
is present; a `NotATweetError` from that construction is caught and
re-raised with retweet-specific context. -/
def Tweet.retweet (t : Tweet) : Except TweetError (Option Tweet) :=
  match get_retweet t with
  | none => .ok none
  | some r =>
    match mkTweet r with
    | .ok rt => .ok (some rt)
    | .error (.notATweet m) =>
      .error (.notATweet
        ("The retweet payload appears malformed. Failed with '" ++ m ++ "'"))
    | .error e => .error e

/-- `Tweet.embedded_tweet`: build a `Tweet` from whichever nested payload
is present; a `NotATweetError` from that construction is caught and
re-raised with context naming the embedded payload. -/
def Tweet.embedded_tweet (t : Tweet) : Except TweetError (Option Tweet) :=
  match get_embedded_tweet t with
  | none => .ok none
  | some e =>
    match mkTweet e with
    | .ok et => .ok (some et)
    | .error (.notATweet m) =>
      .error (.notATweet
        ("The embedded tweet payload " ++ pyReprPayload e
          ++ " appears malformed. \nFailed with '" ++ m ++ "'"))
    | .error err => .error err

/-! ### The lazy derived-value cache (`lazy_property`, not in src) -/

/-- Modelled from the spec: the observable state of a live `Tweet`
instance — its dict entries (the raw payload installed by `__init__`) next
to the separate `lazy_property` derived-value cache (module
`lazy_property`, not in the provided source). -/
structure PostInstance where
  mapping : Payload
  cache : List (String × Json)

/-- Modelled from the spec: `lazy_property` read — on first access compute
the value and store it in the per-instance cache; on later accesses return
the cached value.  The mapping entries are never touched. -/
def lazyRead (inst : PostInstance) (name : String)
    (compute : PostInstance → Json) : Json × PostInstance :=
  match lookupKey inst.cache name with
  | some v => (v, inst)
  | none =>
    let v := compute inst
    (v, { inst with cache := (name, v) :: inst.cache })

/-! ### String helper lemmas -/

/-- The string `sub` occurs contiguously inside `s`. -/
def occursIn (sub s : String) : Prop :=
  ∃ a b : String, s = a ++ sub ++ b

theorem occursIn_middle (a sub b : String) : occursIn sub (a ++ sub ++ b) :=
  ⟨a, b, rfl⟩

theorem string_eq_empty_of_data_nil {s : String} (h : s.data = []) : s = "" :=
  String.ext (h.trans rfl)

theorem append_append_ne {pre m suf : String} (hpre : pre ≠ "") :
    pre ++ m ++ suf ≠ m := by
  intro heq
  have hlen := congrArg (fun s : String => s.data.length) heq
  simp only [String.data_append, List.length_append] at hlen
  have : pre.data.length = 0 ∧ suf.data.length = 0 := by omega
  exact hpre (string_eq_empty_of_data_nil (List.length_eq_zero.mp this.1))

theorem string_mk_data (s : String) : String.mk s.data = s := by
  cases s
  rfl

theorem string_append_ne_empty_right (x z : String) (hz : z ≠ "") :
    x ++ z ≠ "" := by
  intro h
  have hlen := congrArg (fun s : String => s.data.length) h
  simp only [String.data_append, List.length_append, List.length_nil] at hlen
  have hz0 : z.data.length = 0 := by omega
  exact hz (string_eq_empty_of_data_nil (List.length_eq_zero.mp hz0))

/-! ### Concrete payloads used as witness inputs -/

/-- The original-format scenario payload from the source's docstring. -/
def origTweetPayload : Payload :=
  [("id", .num 867474613139156993),
   ("id_str", .str "867474613139156993"),
   ("created_at", .str "Wed May 24 20:17:19 +0000 2017"),
   ("user", .obj [("screen_name", .str "RobotPrincessFi"),
                  ("id_str", .str "815279070241955840")]),
   ("text", .str "hello")]

/-- The activity-streams scenario payload. -/
def asTweetPayload : Payload :=
  [("postedTime", .str "2017-05-24T20:17:19.000Z"),
   ("id", .str "tag:search.twitter.com,2005:867474613139156993"),
   ("actor", .obj [("preferredUsername", .str "RobotPrincessFi")]),
   ("body", .str "hello")]

/-! ### C1 -/

/-- C1: for an original-format payload, `id` is the `id_str` field
verbatim; for an activity-streams payload, `id` is the substring of the
composite `id` field after its last colon. -/
theorem tweet_id_spec (t : Tweet) (s : String) :
    (t.original_format = true →
      lookupKey t.payload "id_str" = some (.str s) →
      t.id = some s)
  ∧ (t.original_format = false →
      lookupKey t.payload "id" = some (.str s) →
      ∀ a b : String, s = a ++ ":" ++ b → ':' ∉ b.data →
      t.id = some b) := by
  constructor
  · intro hfmt hlook
    simp [Tweet.id, hfmt, hlook]
  · intro hfmt hlook a b hs hb
    simp only [Tweet.id, hfmt, Bool.false_eq_true, if_false, hlook]
    have hdata : s.data = a.data ++ ':' :: b.data := by
      rw [hs, String.data_append, String.data_append, List.append_assoc]
      rfl
    have hmap : pyLast ((splitOnChar ':' s.data).map String.mk) (String.mk [])
        = String.mk (pyLast (splitOnChar ':' s.data) []) :=
      pyLast_map String.mk (splitOnChar ':' s.data) []
    have hempty : (String.mk [] : String) = "" := rfl
    rw [hempty] at hmap
    rw [hmap, hdata, pyLast_splitOnChar_append, splitOnChar_of_not_mem hb]
    rw [pyLast_cons]
    show some (String.mk b.data) = some b
    rw [string_mk_data]

/-- C1 witness: the two scenario payloads. -/
theorem tweet_id_spec_witness :
    Tweet.id ⟨origTweetPayload, true⟩ = some "867474613139156993"
  ∧ Tweet.id ⟨asTweetPayload, false⟩ = some "867474613139156993" :=
  ⟨(tweet_id_spec ⟨origTweetPayload, true⟩ "867474613139156993").1 rfl rfl,
   (tweet_id_spec ⟨asTweetPayload, false⟩
      "tag:search.twitter.com,2005:867474613139156993").2 rfl rfl
      "tag:search.twitter.com,2005" "867474613139156993"
      (by decide) (by decide)⟩

/-! ### C2 -/

/-- C2: `created_at_seconds` decodes the canonical identifier as a
snowflake — shift right 22 bits, add the custom epoch 1288834974657 ms,
divide by 1000 truncating — and on id "867474613139156993" it gives
1495657039. -/
theorem created_at_seconds_snowflake :
    (∀ (t : Tweet) (i : String) (n : Nat),
      t.id = some i → pyInt i = some n →
      t.created_at_seconds = some ((n >>> 22 + 1288834974657) / 1000))
  ∧ (∀ t : Tweet, t.id = some "867474613139156993" →
      t.created_at_seconds = some 1495657039) := by
  constructor
  · intro t i n hid hn
    simp [Tweet.created_at_seconds, hid, snowflake2utc, hn]
  · intro t hid
    simp [Tweet.created_at_seconds, hid, snowflake2utc]
    decide

/-- C2 witness: the original-format scenario tweet. -/
theorem created_at_seconds_snowflake_witness :
    Tweet.created_at_seconds ⟨origTweetPayload, true⟩ = some 1495657039
  ∧ Tweet.created_at_seconds ⟨origTweetPayload, true⟩
      = some ((867474613139156993 >>> 22 + 1288834974657) / 1000) :=
  ⟨created_at_seconds_snowflake.2 ⟨origTweetPayload, true⟩ rfl,
   created_at_seconds_snowflake.1 ⟨origTweetPayload, true⟩
     "867474613139156993" 867474613139156993 rfl (by decide)⟩

/-! ### C3 -/

/-- C3: the claim requires the calendar month in the month position of
`YYYY-mm-ddTHH:MM:SS.000Z`, but the source's format string
`"%Y-%M-%dT%H:%M:%S.000Z"` puts the minute there: at 2017-05-24 20:17:19
UTC (month 05, minute 17) the code renders "2017-17-24T20:17:19.000Z"
instead of "2017-05-24T20:17:19.000Z". -/
theorem created_at_string_minute_for_month :
    mkTweet origTweetPayload false = .ok ⟨origTweetPayload, true⟩
  ∧ Tweet.created_at_datetime ⟨origTweetPayload, true⟩
      = some ⟨2017, 5, 24, 20, 17, 19⟩
  ∧ Tweet.created_at_string ⟨origTweetPayload, true⟩
      = some "2017-17-24T20:17:19.000Z"
  ∧ ("2017-17-24T20:17:19.000Z" : String) ≠ "2017-05-24T20:17:19.000Z" := by
  refine ⟨rfl, by decide, by decide, by decide⟩

/-! ### C4 -/

/-- An otherwise-valid original-format payload whose short text field is
the empty string. -/
def emptyTextPayload : Payload :=
  [("created_at", .str "Wed May 24 20:17:19 +0000 2017"),
   ("id", .num 867474613139156993),
   ("id_str", .str "867474613139156993"),
   ("user", .obj [("screen_name", .str "RobotPrincessFi")]),
   ("text", .str "")]

/-- C4 counterexample: a valid post whose `tweet_type` is "tweet" (not
"retweet") and whose `user_entered_text` is nonetheless the empty string,
because its text field itself is empty — refuting the claimed "empty if
and only if retweet". -/
theorem user_entered_text_empty_not_retweet :
    mkTweet emptyTextPayload false = .ok ⟨emptyTextPayload, true⟩
  ∧ Tweet.tweet_type ⟨emptyTextPayload, true⟩ = "tweet"
  ∧ Tweet.tweet_type ⟨emptyTextPayload, true⟩ ≠ "retweet"
  ∧ Tweet.user_entered_text ⟨emptyTextPayload, true⟩ = some "" :=
  ⟨rfl, rfl, by decide, rfl⟩

/-- C4 (amended): `tweet_type` is always one of tweet/quote/retweet;
`user_entered_text` is empty whenever the type is "retweet"; otherwise it
is the untruncated/extended full text — which prefers the extended-text
field over the short one and is itself empty only when that text field is
empty. -/
theorem tweet_type_and_user_entered_text (t : Tweet) :
    (t.tweet_type = "tweet" ∨ t.tweet_type = "quote"
      ∨ t.tweet_type = "retweet")
  ∧ (t.tweet_type = "retweet" → t.user_entered_text = some "")
  ∧ (t.tweet_type ≠ "retweet" → t.user_entered_text = get_full_text t)
  ∧ (∀ (ext : Payload) (s : String), t.tweet_type ≠ "retweet" →
      t.original_format = true →
      lookupKey t.payload "extended_tweet" = some (.obj ext) →
      lookupKey ext "full_text" = some (.str s) →
      t.user_entered_text = some s) := by
  refine ⟨?_, ?_, ?_, ?_⟩
  · by_cases h1 : hasKey t.payload "retweeted_status" = true
    · exact Or.inr (Or.inr (by simp [Tweet.tweet_type, get_tweet_type, h1]))
    · by_cases h2 : hasKey t.payload "quoted_status" = true
      · exact Or.inr (Or.inl (by simp [Tweet.tweet_type, get_tweet_type, h1, h2]))
      · exact Or.inl (by simp [Tweet.tweet_type, get_tweet_type, h1, h2])
  · intro h
    simp [Tweet.user_entered_text, h]
  · intro h
    simp [Tweet.user_entered_text, h]
  · intro ext s hne hfmt hext hfull
    have h3 : t.user_entered_text = get_full_text t := by
      simp [Tweet.user_entered_text, hne]
    rw [h3]
    simp [get_full_text, hfmt, hext, hfull]

/-- A valid original-format payload carrying a nested repost payload. -/
def retweetedPayload : Payload :=
  [("created_at", .str "Wed May 24 20:17:19 +0000 2017"),
   ("id", .num 11), ("id_str", .str "11"),
   ("user", .obj []), ("text", .str "RT @x: hi"),
   ("retweeted_status", .obj
     [("created_at", .str "Wed May 24 20:10:00 +0000 2017"),
      ("id", .num 10), ("id_str", .str "10"),
      ("user", .obj []), ("text", .str "hi")])]

/-- A valid original-format payload with an extended-text substructure. -/
def extendedTextPayload : Payload :=
  [("created_at", .str "Wed May 24 20:17:19 +0000 2017"),
   ("id", .num 12), ("id_str", .str "12"),
   ("user", .obj []),
   ("text", .str "short, truncated te…"),
   ("extended_tweet", .obj [("full_text", .str "short, truncated text no more")])]

/-- C4 witness: a repost gives the empty string; a non-repost with an
extended-text field gives the extended text. -/
theorem tweet_type_and_user_entered_text_witness :
    Tweet.user_entered_text ⟨retweetedPayload, true⟩ = some ""
  ∧ Tweet.user_entered_text ⟨extendedTextPayload, true⟩
      = some "short, truncated text no more" :=
  ⟨(tweet_type_and_user_entered_text ⟨retweetedPayload, true⟩).2.1 rfl,
   (tweet_type_and_user_entered_text ⟨extendedTextPayload, true⟩).2.2.2
     [("full_text", .str "short, truncated text no more")]
     "short, truncated text no more" (by decide) rfl rfl rfl⟩

/-! ### C5 -/

/-- C5: when a nested embedded payload fails classification, each of the
three embedded-post accessors raises a fresh `NotATweetError` — not the
inner error — whose message contains the inner error's message and a word
identifying which embedding failed. -/
theorem embedded_error_wrapping (t : Tweet) (m : String) :
    (∀ q : Payload, get_quote_tweet t = some q →
      mkTweet q false = .error (.notATweet m) →
      ∃ M, t.quote_tweet = .error (.notATweet M) ∧ M ≠ m
        ∧ occursIn m M ∧ occursIn "quote" M)
  ∧ (∀ r : Payload, get_retweet t = some r →
      mkTweet r false = .error (.notATweet m) →
      ∃ M, t.retweet = .error (.notATweet M) ∧ M ≠ m
        ∧ occursIn m M ∧ occursIn "retweet" M)
  ∧ (∀ e : Payload, get_embedded_tweet t = some e →
      mkTweet e false = .error (.notATweet m) →
      ∃ M, t.embedded_tweet = .error (.notATweet M) ∧ M ≠ m
        ∧ occursIn m M ∧ occursIn "embedded" M) := by
  refine ⟨?_, ?_, ?_⟩
  · intro q hq hm
    refine ⟨"The quote-tweet payload appears malformed. Failed with '"
      ++ m ++ "'", ?_, ?_, ?_, ?_⟩
    · simp [Tweet.quote_tweet, hq, hm]
    · exact append_append_ne (by decide)
    · exact occursIn_middle _ m "'"
    · refine ⟨"The ",
        "-tweet payload appears malformed. Failed with '" ++ (m ++ "'"), ?_⟩
      have key : ("The quote-tweet payload appears malformed. Failed with '" : String)
          = ("The " ++ "quote")
            ++ "-tweet payload appears malformed. Failed with '" := by decide
      calc "The quote-tweet payload appears malformed. Failed with '" ++ m ++ "'"
          = "The quote-tweet payload appears malformed. Failed with '"
            ++ (m ++ "'") := String.append_assoc _ m "'"
        _ = (("The " ++ "quote")
              ++ "-tweet payload appears malformed. Failed with '")
            ++ (m ++ "'") := by rw [key]
        _ = ("The " ++ "quote")
            ++ ("-tweet payload appears malformed. Failed with '"
              ++ (m ++ "'")) := String.append_assoc _ _ _
  · intro r hr hm
    refine ⟨"The retweet payload appears malformed. Failed with '"
      ++ m ++ "'", ?_, ?_, ?_, ?_⟩
    · simp [Tweet.retweet, hr, hm]
    · exact append_append_ne (by decide)
    · exact occursIn_middle _ m "'"
    · refine ⟨"The ",
        " payload appears malformed. Failed with '" ++ (m ++ "'"), ?_⟩
      have key : ("The retweet payload appears malformed. Failed with '" : String)
          = ("The " ++ "retweet")
            ++ " payload appears malformed. Failed with '" := by decide
      calc "The retweet payload appears malformed. Failed with '" ++ m ++ "'"
          = "The retweet payload appears malformed. Failed with '"
            ++ (m ++ "'") := String.append_assoc _ m "'"
        _ = (("The " ++ "retweet")
              ++ " payload appears malformed. Failed with '")
            ++ (m ++ "'") := by rw [key]
        _ = ("The " ++ "retweet")
            ++ (" payload appears malformed. Failed with '"
              ++ (m ++ "'")) := String.append_assoc _ _ _
  · intro e he hm
    refine ⟨"The embedded tweet payload " ++ pyReprPayload e
      ++ " appears malformed. \nFailed with '" ++ m ++ "'", ?_, ?_, ?_, ?_⟩
    · simp [Tweet.embedded_tweet, he, hm]
    · exact append_append_ne
        (string_append_ne_empty_right _ _ (by decide))
    · exact occursIn_middle _ m "'"
    · refine ⟨"The ",
        " tweet payload " ++ (pyReprPayload e
          ++ (" appears malformed. \nFailed with '" ++ (m ++ "'"))), ?_⟩
      have key : ("The embedded tweet payload " : String)
          = ("The " ++ "embedded") ++ " tweet payload " := by decide
      calc "The embedded tweet payload " ++ pyReprPayload e
            ++ " appears malformed. \nFailed with '" ++ m ++ "'"
          = ("The embedded tweet payload " ++ pyReprPayload e
              ++ " appears malformed. \nFailed with '")
            ++ (m ++ "'") := String.append_assoc _ m "'"
        _ = ("The embedded tweet payload " ++ pyReprPayload e)
            ++ (" appears malformed. \nFailed with '"
              ++ (m ++ "'")) := String.append_assoc _ _ _
        _ = "The embedded tweet payload "
            ++ (pyReprPayload e
              ++ (" appears malformed. \nFailed with '"
                ++ (m ++ "'"))) := String.append_assoc _ _ _
        _ = ((("The " ++ "embedded") ++ " tweet payload ")
              ++ (pyReprPayload e
                ++ (" appears malformed. \nFailed with '"
                  ++ (m ++ "'")))) := by rw [key]
        _ = ("The " ++ "embedded")
            ++ (" tweet payload "
              ++ (pyReprPayload e
                ++ (" appears malformed. \nFailed with '"
                  ++ (m ++ "'")))) := String.append_assoc _ _ _

/-- A valid outer payload whose nested quote payload is malformed. -/
def outerBadQuote : Payload :=
  [("created_at", .str "Wed May 24 20:17:19 +0000 2017"),
   ("id", .num 21), ("id_str", .str "21"),
   ("user", .obj []), ("text", .str "look at this"),
   ("quoted_status", .obj [("foo", .str "bar")])]

/-- A valid outer payload whose nested repost payload is malformed. -/
def outerBadRetweet : Payload :=
  [("created_at", .str "Wed May 24 20:17:19 +0000 2017"),
   ("id", .num 22), ("id_str", .str "22"),
   ("user", .obj []), ("text", .str "RT @x: bar"),
   ("retweeted_status", .obj [("foo", .str "bar")])]

/-- C5 witness: concrete outer payloads with malformed nested payloads,
for all three accessors. -/
theorem embedded_error_wrapping_witness :
    (∃ M, Tweet.quote_tweet ⟨outerBadQuote, true⟩ = .error (.notATweet M)
      ∧ M ≠ "This dict has neither created_at nor postedTime as keys, it is not a tweet"
      ∧ occursIn "This dict has neither created_at nor postedTime as keys, it is not a tweet" M
      ∧ occursIn "quote" M)
  ∧ (∃ M, Tweet.retweet ⟨outerBadRetweet, true⟩ = .error (.notATweet M)
      ∧ M ≠ "This dict has neither created_at nor postedTime as keys, it is not a tweet"
      ∧ occursIn "This dict has neither created_at nor postedTime as keys, it is not a tweet" M
      ∧ occursIn "retweet" M)
  ∧ (∃ M, Tweet.embedded_tweet ⟨outerBadRetweet, true⟩ = .error (.notATweet M)
      ∧ M ≠ "This dict has neither created_at nor postedTime as keys, it is not a tweet"
      ∧ occursIn "This dict has neither created_at nor postedTime as keys, it is not a tweet" M
      ∧ occursIn "embedded" M) :=
  ⟨(embedded_error_wrapping ⟨outerBadQuote, true⟩ _).1
      [("foo", .str "bar")] rfl rfl,
   (embedded_error_wrapping ⟨outerBadRetweet, true⟩ _).2.1
      [("foo", .str "bar")] rfl rfl,
   (embedded_error_wrapping ⟨outerBadRetweet, true⟩ _).2.2
      [("foo", .str "bar")] rfl rfl⟩

/-! ### C6 -/

/-- C6: a payload matching neither schema variant makes construction fail
with `NotATweetError` (no `Tweet` results), and any successfully
constructed `Tweet` carries exactly the classifier's verdict and the full
payload — there is no partially-classified state. -/
theorem construction_rejects_unclassifiable (p : Payload) (b : Bool) :
    (hasKey p "created_at" = false → hasKey p "postedTime" = false →
      mkTweet p b = .error (.notATweet "This dict has neither created_at nor postedTime as keys, it is not a tweet"))
  ∧ (∀ t : Tweet, mkTweet p b = .ok t →
      check_tweet p b = .ok t.original_format ∧ t.payload = p) := by
  constructor
  · intro h1 h2
    simp [mkTweet, check_tweet, h1, h2]
  · intro t ht
    cases hc : check_tweet p b with
    | error e =>
      rw [mkTweet, hc] at ht
      cases ht
    | ok fmt =>
      rw [mkTweet, hc] at ht
      injection ht with ht2
      rw [← ht2]
      exact ⟨rfl, rfl⟩

/-- C6 witness: a payload with no discriminating keys is rejected; the
scenario payload is accepted with the classifier's verdict installed. -/
theorem construction_rejects_unclassifiable_witness :
    mkTweet [("foo", Json.str "bar")] false
      = .error (.notATweet "This dict has neither created_at nor postedTime as keys, it is not a tweet")
  ∧ (check_tweet origTweetPayload false
        = .ok (Tweet.original_format ⟨origTweetPayload, true⟩)
      ∧ Tweet.payload ⟨origTweetPayload, true⟩ = origTweetPayload) :=
  ⟨(construction_rejects_unclassifiable [("foo", Json.str "bar")] false).1
      rfl rfl,
   (construction_rejects_unclassifiable origTweetPayload false).2
      ⟨origTweetPayload, true⟩ rfl⟩

/-! ### C7 -/

/-- C7: a valid post with no nested quote or repost payload gets `None`
from all three embedded-post accessors, with no error raised. -/
theorem no_embedded_payload_gives_none (t : Tweet)
    (hq : hasKey t.payload "quoted_status" = false)
    (hr : hasKey t.payload "retweeted_status" = false) :
    t.quote_tweet = .ok none
  ∧ t.retweet = .ok none
  ∧ t.embedded_tweet = .ok none := by
  have hq' : lookupKey t.payload "quoted_status" = none :=
    lookupKey_eq_none_of_hasKey_false hq
  have hr' : lookupKey t.payload "retweeted_status" = none :=
    lookupKey_eq_none_of_hasKey_false hr
  have g1 : get_quote_tweet t = none := by simp [get_quote_tweet, hq']
  have g2 : get_retweet t = none := by simp [get_retweet, hr']
  refine ⟨?_, ?_, ?_⟩
  · simp [Tweet.quote_tweet, g1]
  · simp [Tweet.retweet, g2]
  · simp [Tweet.embedded_tweet, get_embedded_tweet, g1, g2]

/-- C7 witness: the original-format scenario payload embeds nothing. -/
theorem no_embedded_payload_gives_none_witness :
    Tweet.quote_tweet ⟨origTweetPayload, true⟩ = .ok none
  ∧ Tweet.retweet ⟨origTweetPayload, true⟩ = .ok none
  ∧ Tweet.embedded_tweet ⟨origTweetPayload, true⟩ = .ok none :=
  no_embedded_payload_gives_none ⟨origTweetPayload, true⟩ rfl rfl

/-! ### C8 -/

/-- C8: `poll_options` on an activity-streams-variant post always raises
`NotAvailableError` (never a default); on an original-format post it is
the list of poll option labels when the poll substructure is present
(an `entities` object whose `polls` field is an array) and the empty list
in every other case — no entities key, a non-object entities value, no
polls key, or a non-array polls value. -/
theorem poll_options_policy (t : Tweet) :
    (t.original_format = false →
      t.poll_options = .error (.notAvailable "Poll options are not available in activity-streams format Tweets"))
  ∧ (∀ (ents : Payload) (polls : List Json), t.original_format = true →
      lookupKey t.payload "entities" = some (.obj ents) →
      lookupKey ents "polls" = some (.arr polls) →
      t.poll_options = .ok (pollOptionTexts polls))
  ∧ (t.original_format = true →
      ¬ (∃ (ents : Payload) (polls : List Json),
        lookupKey t.payload "entities" = some (.obj ents)
        ∧ lookupKey ents "polls" = some (.arr polls)) →
      t.poll_options = .ok []) := by
  refine ⟨?_, ?_, ?_⟩
  · intro h
    simp [Tweet.poll_options, get_poll_options, h]
  · intro ents polls h he hpolls
    simp [Tweet.poll_options, get_poll_options, h, he, hpolls]
  · intro h hno
    cases hent : lookupKey t.payload "entities" with
    | none => simp [Tweet.poll_options, get_poll_options, h, hent]
    | some v =>
      cases v with
      | obj ents =>
        cases hpolls : lookupKey ents "polls" with
        | none => simp [Tweet.poll_options, get_poll_options, h, hent, hpolls]
        | some w =>
          cases w with
          | arr polls => exact absurd ⟨ents, polls, hent, hpolls⟩ hno
          | null => simp [Tweet.poll_options, get_poll_options, h, hent, hpolls]
          | bool b => simp [Tweet.poll_options, get_poll_options, h, hent, hpolls]
          | num n => simp [Tweet.poll_options, get_poll_options, h, hent, hpolls]
          | str s => simp [Tweet.poll_options, get_poll_options, h, hent, hpolls]
          | obj o => simp [Tweet.poll_options, get_poll_options, h, hent, hpolls]
      | null => simp [Tweet.poll_options, get_poll_options, h, hent]
      | bool b => simp [Tweet.poll_options, get_poll_options, h, hent]
      | num n => simp [Tweet.poll_options, get_poll_options, h, hent]
      | str s => simp [Tweet.poll_options, get_poll_options, h, hent]
      | arr a => simp [Tweet.poll_options, get_poll_options, h, hent]

/-- An original-format payload carrying a two-option poll. -/
def pollPayload : Payload :=
  [("created_at", .str "Wed May 24 20:17:19 +0000 2017"),
   ("id", .num 31), ("id_str", .str "31"),
   ("user", .obj []), ("text", .str "which?"),
   ("entities", .obj
     [("polls", .arr
       [.obj [("options", .arr
         [.obj [("position", .num 1), ("text", .str "yes")],
          .obj [("position", .num 2), ("text", .str "no")]])]])])]

/-- An original-format payload whose `entities` object carries hashtags
and urls but no poll. -/
def entitiesNoPollPayload : Payload :=
  [("created_at", .str "Wed May 24 20:17:19 +0000 2017"),
   ("id", .num 32), ("id_str", .str "32"),
   ("user", .obj []), ("text", .str "no poll here"),
   ("entities", .obj [("hashtags", .arr []), ("urls", .arr [])])]

/-- C8 witness: an activity-streams post errs; an original-format post
with a poll yields the labels; one without an entities key and one whose
entities object has no polls key both yield `[]`. -/
theorem poll_options_policy_witness :
    Tweet.poll_options ⟨asTweetPayload, false⟩
      = .error (.notAvailable "Poll options are not available in activity-streams format Tweets")
  ∧ Tweet.poll_options ⟨pollPayload, true⟩ = .ok ["yes", "no"]
  ∧ Tweet.poll_options ⟨origTweetPayload, true⟩ = .ok []
  ∧ Tweet.poll_options ⟨entitiesNoPollPayload, true⟩ = .ok [] :=
  ⟨(poll_options_policy ⟨asTweetPayload, false⟩).1 rfl,
   (poll_options_policy ⟨pollPayload, true⟩).2.1
     [("polls", .arr
       [.obj [("options", .arr
         [.obj [("position", .num 1), ("text", .str "yes")],
          .obj [("position", .num 2), ("text", .str "no")]])]])]
     [.obj [("options", .arr
       [.obj [("position", .num 1), ("text", .str "yes")],
        .obj [("position", .num 2), ("text", .str "no")]])]]
     rfl rfl rfl,
   (poll_options_policy ⟨origTweetPayload, true⟩).2.2 rfl
     (by rintro ⟨ents, polls, hent, _⟩
         exact Option.noConfusion hent),
   (poll_options_policy ⟨entitiesNoPollPayload, true⟩).2.2 rfl
     (by rintro ⟨ents, polls, hent, hpolls⟩
         injection hent with h1
         injection h1 with h2
         subst h2
         exact Option.noConfusion hpolls)⟩

/-! ### C9 -/

/-- C9: however the outer post was constructed (strict validation on or
off), the embedded posts built by the three accessors come from
construction with validation disabled — success of the non-strict nested
construction alone determines the accessor's result. -/
theorem nested_construction_not_strict (p : Payload) (b : Bool) (t : Tweet)
    (hp : mkTweet p b = .ok t) :
    (∀ (q : Payload) (tq : Tweet), get_quote_tweet t = some q →
      mkTweet q false = .ok tq → t.quote_tweet = .ok (some tq))
  ∧ (∀ (r : Payload) (tr : Tweet), get_retweet t = some r →
      mkTweet r false = .ok tr → t.retweet = .ok (some tr))
  ∧ (∀ (e : Payload) (te : Tweet), get_embedded_tweet t = some e →
      mkTweet e false = .ok te → t.embedded_tweet = .ok (some te)) := by
  refine ⟨?_, ?_, ?_⟩
  · intro q tq hq hmk
    simp [Tweet.quote_tweet, hq, hmk]
  · intro r tr hr hmk
    simp [Tweet.retweet, hr, hmk]
  · intro e te he hmk
    simp [Tweet.embedded_tweet, he, hmk]

/-- A nested payload that classifies fine but carries a key outside the
expected superset, so it fails strict validation. -/
def nestedExtraKeyPayload : Payload :=
  [("created_at", .str "Wed May 24 20:00:00 +0000 2017"),
   ("id", .num 41), ("id_str", .str "41"),
   ("user", .obj []), ("text", .str "inner"),
   ("mystery_key", .null)]

/-- An outer payload that passes strict validation and quotes
`nestedExtraKeyPayload`. -/
def outerStrictQuote : Payload :=
  [("created_at", .str "Wed May 24 20:17:19 +0000 2017"),
   ("id", .num 42), ("id_str", .str "42"),
   ("user", .obj []), ("text", .str "outer"),
   ("quoted_status", .obj nestedExtraKeyPayload)]

/-- An outer payload that passes strict validation and reposts
`nestedExtraKeyPayload`. -/
def outerStrictRetweet : Payload :=
  [("created_at", .str "Wed May 24 20:17:19 +0000 2017"),
   ("id", .num 43), ("id_str", .str "43"),
   ("user", .obj []), ("text", .str "RT @x: inner"),
   ("retweeted_status", .obj nestedExtraKeyPayload)]

/-- C9 witness: the outer posts are built with strict validation on, the
nested payload fails strict validation, yet all three accessors succeed
because nested construction is non-strict. -/
theorem nested_construction_not_strict_witness :
    mkTweet nestedExtraKeyPayload true
      = .error (.notATweet "Unexpected keys or missing expected keys in this original-format dict")
  ∧ mkTweet nestedExtraKeyPayload false = .ok ⟨nestedExtraKeyPayload, true⟩
  ∧ Tweet.quote_tweet ⟨outerStrictQuote, true⟩
      = .ok (some ⟨nestedExtraKeyPayload, true⟩)
  ∧ Tweet.retweet ⟨outerStrictRetweet, true⟩
      = .ok (some ⟨nestedExtraKeyPayload, true⟩)
  ∧ Tweet.embedded_tweet ⟨outerStrictRetweet, true⟩
      = .ok (some ⟨nestedExtraKeyPayload, true⟩) :=
  ⟨rfl, rfl,
   (nested_construction_not_strict outerStrictQuote true
      ⟨outerStrictQuote, true⟩ rfl).1
      nestedExtraKeyPayload ⟨nestedExtraKeyPayload, true⟩ rfl rfl,
   (nested_construction_not_strict outerStrictRetweet true
      ⟨outerStrictRetweet, true⟩ rfl).2.1
      nestedExtraKeyPayload ⟨nestedExtraKeyPayload, true⟩ rfl rfl,
   (nested_construction_not_strict outerStrictRetweet true
      ⟨outerStrictRetweet, true⟩ rfl).2.2
      nestedExtraKeyPayload ⟨nestedExtraKeyPayload, true⟩ rfl rfl⟩

/-! ### C10 -/

/-- C10: a successfully constructed post's mapping content is exactly the
raw input payload (every key/value pair readable by plain lookup), and a
lazy accessor read never adds, removes, or changes a mapping entry — it
only touches the separate derived-value cache. -/
theorem post_mapping_preserved :
    (∀ (p : Payload) (b : Bool) (t : Tweet), mkTweet p b = .ok t →
      ∀ k : String, lookupKey t.payload k = lookupKey p k)
  ∧ (∀ (inst : PostInstance) (name : String) (compute : PostInstance → Json),
      (lazyRead inst name compute).2.mapping = inst.mapping) := by
  constructor
  · intro p b t ht k
    cases hc : check_tweet p b with
    | error e =>
      rw [mkTweet, hc] at ht
      cases ht
    | ok fmt =>
      rw [mkTweet, hc] at ht
      injection ht with ht2
      rw [← ht2]
  · intro inst name compute
    cases hc : lookupKey inst.cache name <;> simp [lazyRead, hc]

/-- C10 witness: the scenario post's entries read back verbatim, and a
first-access lazy read leaves the mapping untouched. -/
theorem post_mapping_preserved_witness :
    lookupKey (Tweet.payload ⟨origTweetPayload, true⟩) "text"
      = lookupKey origTweetPayload "text"
  ∧ (lazyRead ⟨origTweetPayload, []⟩ "id"
      (fun _ => .str "867474613139156993")).2.mapping = origTweetPayload :=
  ⟨post_mapping_preserved.1 origTweetPayload false ⟨origTweetPayload, true⟩
      rfl "text",
   post_mapping_preserved.2 ⟨origTweetPayload, []⟩ "id"
      (fun _ => .str "867474613139156993")⟩
